/-
  Verification of the Clinical Records Store of the healthcare-risk-platform
  repository.

  The repository's non-trivial logic is the relational schema in
  src/models.py: seven SQLAlchemy entity types (User, Patient, Vital,
  LabResult, RiskAssessment, Alert, Intervention) with declared column
  types, nullability, static defaults, unique columns, foreign keys and
  CHECK constraints.  The structures below embed those declarations
  column by column:

    * UUID primary/foreign keys are embedded as `Nat` (opaque identifiers,
      only equality is used);
    * nullable columns are `Option _`, `nullable=False` columns are bare;
    * `db.Float` columns are embedded as `Rat` (exact order comparisons,
      which is all the schema performs);
    * `db.DateTime` / `db.Date` columns are embedded as `Nat` instants;
    * ARRAY(String) is `List String`, JSONB documents are association
      lists `List (String × String)`;
    * a static `default=` of a column becomes the default value of the
      corresponding structure field.

  The repository ships no repository-operation code: the create/update
  operations of the Clinical Records Store, its error taxonomy
  (`NotFound` / `ConstraintViolation`) and the soft-lifecycle operations
  are declared in the spec only, and the constraint enforcement is left
  to the relational engine.  Those operations are therefore modelled from
  the spec (marked `Modelled from the spec:` below), enforcing exactly
  the constraints declared in src/models.py, with SQL semantics for
  CHECK constraints on nullable columns (a NULL operand makes the check
  pass).  Each failed operation leaves the store unchanged, which is the
  transactional guarantee the spec delegates to the database.
-/
import Mathlib

namespace HealthcareRisk

/-- src/models.py `User` (table `users`): identity, role, credential hash,
active/verified flags; `username` and `email` are `unique=True`,
`role` defaults to viewer, `is_active` to True, `is_verified` to False. -/
structure User where
  id : Nat
  username : String
  email : String
  password_hash : String
  first_name : Option String := none
  last_name : Option String := none
  role : String := "viewer"
  is_active : Bool := true
  is_verified : Bool := false
  created_at : Nat := 0
  updated_at : Nat := 0
  last_login : Option Nat := none
  deriving DecidableEq

/-- src/models.py `Patient` (table `patients`): demographics keyed by a
unique MRN; `is_active` defaults to True, comorbidities/allergies to
empty arrays and current_medications to an empty document. -/
structure Patient where
  id : Nat
  mrn : String
  first_name : String
  last_name : String
  date_of_birth : Nat
  gender : String
  phone : Option String := none
  email : Option String := none
  address : Option String := none
  city : Option String := none
  state : Option String := none
  zip_code : Option String := none
  emergency_contact : Option String := none
  emergency_phone : Option String := none
  insurance_id : Option String := none
  comorbidities : List String := []
  allergies : List String := []
  current_medications : List (String × String) := []
  admission_date : Option Nat := none
  discharge_date : Option Nat := none
  is_active : Bool := true
  created_at : Nat := 0
  updated_at : Nat := 0
  deriving DecidableEq

/-- src/models.py `Vital` (table `vital_signs`): non-null `patient_id`
foreign key to `patients.id`; nullable measurements with CHECK
constraints `heart_rate ∈ [0,300]`, `systolic_bp ∈ [50,300]`,
`diastolic_bp ∈ [30,200]`. -/
structure Vital where
  id : Nat
  patient_id : Nat
  measurement_time : Nat := 0
  heart_rate : Option Int := none
  systolic_bp : Option Int := none
  diastolic_bp : Option Int := none
  respiratory_rate : Option Int := none
  temperature : Option Rat := none
  oxygen_saturation : Option Rat := none
  blood_glucose : Option Rat := none
  weight : Option Rat := none
  created_at : Nat := 0
  deriving DecidableEq

/-- src/models.py `LabResult` (table `lab_results`): non-null `patient_id`
foreign key, non-null `test_name` and `test_date`, `status` defaults to
pending. -/
structure LabResult where
  id : Nat
  patient_id : Nat
  test_name : String
  test_value : Option Rat := none
  unit : Option String := none
  reference_low : Option Rat := none
  reference_high : Option Rat := none
  test_date : Nat
  lab_name : Option String := none
  status : String := "pending"
  notes : Option String := none
  created_at : Nat := 0
  deriving DecidableEq

/-- src/models.py `RiskAssessment` (table `risk_assessments`): non-null
`patient_id` foreign key, non-null `risk_score` with CHECK constraint
`risk_score ∈ [0,100]`, nullable `created_by` foreign key to `users.id`. -/
structure RiskAssessment where
  id : Nat
  patient_id : Nat
  assessment_date : Nat := 0
  risk_score : Rat
  risk_category : Option String := none
  clinical_factors : List (String × String) := []
  alert_triggered : Bool := false
  alert_message : Option String := none
  assessment_type : Option String := none
  created_by : Option Nat := none
  created_at : Nat := 0
  deriving DecidableEq

/-- src/models.py `Alert` (table `alerts`): non-null `patient_id` foreign
key, non-null `alert_type` and `title`, `status` defaults to active,
nullable `acknowledged_by` foreign key to `users.id`. -/
structure Alert where
  id : Nat
  patient_id : Nat
  alert_type : String
  title : String
  message : Option String := none
  severity : Option String := none
  status : String := "active"
  acknowledged_by : Option Nat := none
  acknowledged_at : Option Nat := none
  resolved_at : Option Nat := none
  created_at : Nat := 0
  deriving DecidableEq

/-- src/models.py `Intervention` (table `interventions`): non-null
`patient_id` foreign key, non-null `intervention_type` and
`intervention_date`, nullable `clinician_id` foreign key to `users.id`. -/
structure Intervention where
  id : Nat
  patient_id : Nat
  intervention_type : String
  description : Option String := none
  intervention_date : Nat
  outcome : Option String := none
  clinician_id : Option Nat := none
  notes : Option String := none
  created_at : Nat := 0
  deriving DecidableEq

/-- Modelled from the spec: the error taxonomy of the Clinical Records
Store — `NotFound` for a missing patient/user reference,
`ConstraintViolation` for an out-of-range value or duplicate unique key
(src/ only declares the constraints; signalling is left to the engine). -/
inductive DomainError where
  | notFound
  | constraintViolation
  deriving DecidableEq

/-- The relational store: one table per entity type of src/models.py. -/
structure Store where
  users : List User
  patients : List Patient
  vitals : List Vital
  lab_results : List LabResult
  risk_assessments : List RiskAssessment
  alerts : List Alert
  interventions : List Intervention
  deriving DecidableEq

def emptyStore : Store :=
  ⟨[], [], [], [], [], [], []⟩

def userIds (s : Store) : List Nat := s.users.map User.id
def patientIds (s : Store) : List Nat := s.patients.map Patient.id
def vitalIds (s : Store) : List Nat := s.vitals.map Vital.id
def labResultIds (s : Store) : List Nat := s.lab_results.map LabResult.id
def riskAssessmentIds (s : Store) : List Nat := s.risk_assessments.map RiskAssessment.id
def alertIds (s : Store) : List Nat := s.alerts.map Alert.id
def interventionIds (s : Store) : List Nat := s.interventions.map Intervention.id

/-- SQL CHECK semantics on a nullable numeric column: a NULL operand
makes the constraint pass, a present value must lie in `[lo, hi]`. -/
def OptInRange (lo hi : Int) : Option Int → Prop
  | none => True
  | some x => lo ≤ x ∧ x ≤ hi

instance (lo hi : Int) (o : Option Int) : Decidable (OptInRange lo hi o) :=
  match o with
  | none => isTrue trivial
  | some x => inferInstanceAs (Decidable (lo ≤ x ∧ x ≤ hi))

/-- A nullable foreign-key column: NULL passes, a present id must exist. -/
def OptRef (ids : List Nat) : Option Nat → Prop
  | none => True
  | some i => i ∈ ids

instance (ids : List Nat) (o : Option Nat) : Decidable (OptRef ids o) :=
  match o with
  | none => isTrue trivial
  | some i => inferInstanceAs (Decidable (i ∈ ids))

/-- The range conditions of `Vital.__table_args__` (src/models.py lines
88–90), with SQL NULL-passes semantics on the nullable columns. -/
def Vital.rangesOk (v : Vital) : Prop :=
  OptInRange 0 300 v.heart_rate ∧
  OptInRange 50 300 v.systolic_bp ∧
  OptInRange 30 200 v.diastolic_bp

instance (v : Vital) : Decidable v.rangesOk :=
  inferInstanceAs (Decidable (_ ∧ _ ∧ _))

/-- The range condition of `RiskAssessment.__table_args__`
(src/models.py line 139): `risk_score >= 0 AND risk_score <= 100` on a
non-null column. -/
def RiskAssessment.rangeOk (r : RiskAssessment) : Prop :=
  0 ≤ r.risk_score ∧ r.risk_score ≤ 100

instance (r : RiskAssessment) : Decidable r.rangeOk :=
  inferInstanceAs (Decidable (_ ∧ _))

/-- The row-level checks on a `Vital` in the context of a store: the
non-null `patient_id` foreign key (src/models.py line 93) and the CHECK
constraints.  `none` means the row is admissible. -/
def Vital.chk (s : Store) (v : Vital) : Option DomainError :=
  if v.patient_id ∈ patientIds s then
    if v.rangesOk then none else some .constraintViolation
  else some .notFound

/-- The row-level checks on a `LabResult`: the non-null `patient_id`
foreign key (src/models.py line 117). -/
def LabResult.chk (s : Store) (l : LabResult) : Option DomainError :=
  if l.patient_id ∈ patientIds s then none else some .notFound

/-- The row-level checks on a `RiskAssessment`: the non-null `patient_id`
foreign key, the nullable `created_by` foreign key to `users.id`
(src/models.py lines 142 and 150) and the risk_score CHECK constraint. -/
def RiskAssessment.chk (s : Store) (r : RiskAssessment) : Option DomainError :=
  if r.patient_id ∈ patientIds s ∧ OptRef (userIds s) r.created_by then
    if r.rangeOk then none else some .constraintViolation
  else some .notFound

/-- The row-level checks on an `Alert`: the non-null `patient_id` foreign
key and the nullable `acknowledged_by` foreign key to `users.id`
(src/models.py lines 167 and 173). -/
def Alert.chk (s : Store) (a : Alert) : Option DomainError :=
  if a.patient_id ∈ patientIds s ∧ OptRef (userIds s) a.acknowledged_by then
    none
  else some .notFound

/-- The row-level checks on an `Intervention`: the non-null `patient_id`
foreign key and the nullable `clinician_id` foreign key to `users.id`
(src/models.py lines 191 and 196). -/
def Intervention.chk (s : Store) (i : Intervention) : Option DomainError :=
  if i.patient_id ∈ patientIds s ∧ OptRef (userIds s) i.clinician_id then
    none
  else some .notFound

/-- The unique-column checks on a `User` (src/models.py lines 26–27:
`username` and `email` are `unique=True`) against the other rows of the
table: `others` is the whole table on insert, the table minus the row
itself on update. -/
def User.chkAgainst (others : List User) (u : User) : Option DomainError :=
  if ∀ x ∈ others, x.username ≠ u.username ∧ x.email ≠ u.email then none
  else some .constraintViolation

/-- The unique-column check on a `Patient` (src/models.py line 56: `mrn`
is `unique=True`) against the other rows of the table. -/
def Patient.chkAgainst (others : List Patient) (p : Patient) : Option DomainError :=
  if ∀ x ∈ others, x.mrn ≠ p.mrn then none
  else some .constraintViolation

/-- Modelled from the spec: inserting a row into a table.  The row checks
run first; then the primary key must be fresh (a duplicate key is a
`ConstraintViolation`); an admissible row is appended. -/
def createRow {α : Type} (getId : α → Nat) (chk : Option DomainError)
    (l : List α) (a : α) : Except DomainError (List α) :=
  match chk with
  | some e => .error e
  | none =>
    if getId a ∈ l.map getId then .error .constraintViolation
    else .ok (l ++ [a])

/-- Replace every row whose primary key equals that of `a` by `a`. -/
def replaceById {α : Type} (getId : α → Nat) (l : List α) (a : α) : List α :=
  l.map fun x => if getId x = getId a then a else x

/-- Modelled from the spec: updating the row with the primary key of `a`
to the new contents `a`.  Constraints are re-checked; updating an absent
row touches no row (SQL UPDATE semantics). -/
def updateRow {α : Type} (getId : α → Nat) (chk : Option DomainError)
    (l : List α) (a : α) : Except DomainError (List α) :=
  if getId a ∈ l.map getId then
    match chk with
    | some e => .error e
    | none => .ok (replaceById getId l a)
  else .ok l

/-- The rows an updated `User` row is checked against for uniqueness:
the table minus the row being updated. -/
def User.others (l : List User) (u : User) : List User :=
  l.filter fun x => x.id ≠ u.id

/-- The rows an updated `Patient` row is checked against for uniqueness:
the table minus the row being updated. -/
def Patient.others (l : List Patient) (p : Patient) : List Patient :=
  l.filter fun x => x.id ≠ p.id

/-- Soft lifecycle on a `Patient` row: deactivation only clears the
`is_active` flag (src/models.py line 75) of the matching row. -/
def Patient.deactivate (pid : Nat) (p : Patient) : Patient :=
  if p.id = pid then { p with is_active := false } else p

/-- Soft lifecycle on an `Alert` row: acknowledgment records the acting
user and timestamp and moves `status` to acknowledged (src/models.py
lines 172–174). -/
def Alert.acknowledge (aid uid t : Nat) (a : Alert) : Alert :=
  if a.id = aid then
    { a with status := "acknowledged", acknowledged_by := some uid,
             acknowledged_at := some t }
  else a

/-- Soft lifecycle on an `Alert` row: resolution moves `status` to
resolved and stamps `resolved_at` (src/models.py lines 172 and 175). -/
def Alert.resolve (aid t : Nat) (a : Alert) : Alert :=
  if a.id = aid then { a with status := "resolved", resolved_at := some t }
  else a

/-- Modelled from the spec: the operations of the Clinical Records Store —
create/update for each entity type, plus the soft-lifecycle operations
(deactivating a Patient, acknowledging and resolving an Alert); reads
are omitted as they do not change the store.  There is no delete. -/
inductive Op where
  | createUser (u : User)
  | createPatient (p : Patient)
  | createVital (v : Vital)
  | createLabResult (l : LabResult)
  | createRiskAssessment (r : RiskAssessment)
  | createAlert (a : Alert)
  | createIntervention (i : Intervention)
  | updateUser (u : User)
  | updatePatient (p : Patient)
  | updateVital (v : Vital)
  | updateLabResult (l : LabResult)
  | updateRiskAssessment (r : RiskAssessment)
  | updateAlert (a : Alert)
  | updateIntervention (i : Intervention)
  | deactivatePatient (id : Nat)
  | acknowledgeAlert (id : Nat) (userId : Nat) (time : Nat)
  | resolveAlert (id : Nat) (time : Nat)
  deriving DecidableEq

/-- Modelled from the spec: one transition of the Clinical Records Store.
Every constraint enforced is one declared in src/models.py; a failing
operation signals a `DomainError` and produces no store. -/
def step (s : Store) : Op → Except DomainError Store
  | .createUser u =>
    (createRow User.id (User.chkAgainst s.users u) s.users u).map
      fun l => { s with users := l }
  | .createPatient p =>
    (createRow Patient.id (Patient.chkAgainst s.patients p) s.patients p).map
      fun l => { s with patients := l }
  | .createVital v =>
    (createRow Vital.id (Vital.chk s v) s.vitals v).map
      fun l => { s with vitals := l }
  | .createLabResult lr =>
    (createRow LabResult.id (LabResult.chk s lr) s.lab_results lr).map
      fun l => { s with lab_results := l }
  | .createRiskAssessment r =>
    (createRow RiskAssessment.id (RiskAssessment.chk s r) s.risk_assessments r).map
      fun l => { s with risk_assessments := l }
  | .createAlert a =>
    (createRow Alert.id (Alert.chk s a) s.alerts a).map
      fun l => { s with alerts := l }
  | .createIntervention i =>
    (createRow Intervention.id (Intervention.chk s i) s.interventions i).map
      fun l => { s with interventions := l }
  | .updateUser u =>
    (updateRow User.id
        (User.chkAgainst (User.others s.users u) u) s.users u).map
      fun l => { s with users := l }
  | .updatePatient p =>
    (updateRow Patient.id
        (Patient.chkAgainst (Patient.others s.patients p) p) s.patients p).map
      fun l => { s with patients := l }
  | .updateVital v =>
    (updateRow Vital.id (Vital.chk s v) s.vitals v).map
      fun l => { s with vitals := l }
  | .updateLabResult lr =>
    (updateRow LabResult.id (LabResult.chk s lr) s.lab_results lr).map
      fun l => { s with lab_results := l }
  | .updateRiskAssessment r =>
    (updateRow RiskAssessment.id (RiskAssessment.chk s r) s.risk_assessments r).map
      fun l => { s with risk_assessments := l }
  | .updateAlert a =>
    (updateRow Alert.id (Alert.chk s a) s.alerts a).map
      fun l => { s with alerts := l }
  | .updateIntervention i =>
    (updateRow Intervention.id (Intervention.chk s i) s.interventions i).map
      fun l => { s with interventions := l }
  | .deactivatePatient pid =>
    if pid ∈ patientIds s then
      .ok { s with patients := s.patients.map (Patient.deactivate pid) }
    else .error .notFound
  | .acknowledgeAlert aid uid t =>
    if aid ∈ alertIds s then
      if uid ∈ userIds s then
        .ok { s with alerts := s.alerts.map (Alert.acknowledge aid uid t) }
      else .error .notFound
    else .error .notFound
  | .resolveAlert aid t =>
    if aid ∈ alertIds s then
      .ok { s with alerts := s.alerts.map (Alert.resolve aid t) }
    else .error .notFound

/-- Run one operation against the store: a failed operation leaves the
store unchanged (the transactional guarantee the spec delegates to the
relational engine). -/
def run (s : Store) (op : Op) : Store :=
  match step s op with
  | .ok s1 => s1
  | .error _ => s

/-- Run a sequence of operations. -/
def runSeq (s : Store) (ops : List Op) : Store :=
  ops.foldl run s

/-- A store is reachable when some operation sequence builds it from the
empty store. -/
def Reachable (s : Store) : Prop :=
  ∃ ops : List Op, runSeq emptyStore ops = s

/-- src/models.py `User.set_password` (lines 38–39): stores the hash of
the password.  werkzeug's `generate_password_hash` is an external
collaborator; it is abstracted as an explicit hash function parameter. -/
def User.set_password (hash : String → String) (u : User) (password : String) : User :=
  { u with password_hash := hash password }

/-- src/models.py `User.check_password` (lines 41–42): compares the hash
of the candidate password with the stored hash, via the same abstract
hash function. -/
def User.check_password (hash : String → String) (u : User) (password : String) : Bool :=
  hash password == u.password_hash

/-- A `User` row built from the required (non-null, non-defaulted)
columns only; every other column takes the declared default of
src/models.py lines 25–36. -/
def User.new (id : Nat) (username email password_hash : String) : User :=
  { id := id, username := username, email := email, password_hash := password_hash }

/-- An `Alert` row built from the required columns only; the other
columns take the declared defaults of src/models.py lines 166–176. -/
def Alert.new (id patient_id : Nat) (alert_type title : String) : Alert :=
  { id := id, patient_id := patient_id, alert_type := alert_type, title := title }

/-- A `LabResult` row built from the required columns only; the other
columns take the declared defaults of src/models.py lines 116–127. -/
def LabResult.new (id patient_id : Nat) (test_name : String) (test_date : Nat) : LabResult :=
  { id := id, patient_id := patient_id, test_name := test_name, test_date := test_date }

/-- Concrete sample data used to exercise the theorems on closed inputs. -/
def patientAlice : Patient :=
  { id := 1, mrn := "MRN-001", first_name := "Alice", last_name := "Smith",
    date_of_birth := 19800101, gender := "F" }

def userBob : User :=
  { id := 2, username := "bob", email := "bob(at)example.org", password_hash := "h1" }

def vitalNormal : Vital :=
  { id := 10, patient_id := 1, heart_rate := some 70, systolic_bp := some 120,
    diastolic_bp := some 80 }

def vitalOrphan : Vital :=
  { id := 11, patient_id := 99, heart_rate := some 70 }

def vitalTachy : Vital :=
  { id := 12, patient_id := 1, heart_rate := some 301 }

def vitalBadBp : Vital :=
  { id := 13, patient_id := 1, systolic_bp := some 40 }

def riskHalf : RiskAssessment :=
  { id := 20, patient_id := 1, risk_score := 50 }

def riskOverflow : RiskAssessment :=
  { id := 21, patient_id := 1, risk_score := 150 }

def userBobClone : User :=
  { id := 3, username := "bob", email := "bob2(at)example.org", password_hash := "h2" }

def vitalBadUpdate : Vital :=
  { id := 10, patient_id := 1, systolic_bp := some 40 }

def riskGhostCreator : RiskAssessment :=
  { id := 22, patient_id := 1, risk_score := 50, created_by := some 99 }

def alertHigh : Alert :=
  Alert.new 30 1 "critical" "Tachycardia detected"

def opsBase : List Op :=
  [.createPatient patientAlice, .createUser userBob, .createVital vitalNormal]

def opsNullCreator : List Op :=
  [.createPatient patientAlice, .createRiskAssessment riskHalf]

def opsPatientOnly : List Op :=
  [.createPatient patientAlice]

def opsUserOnly : List Op :=
  [.createUser userBob]

def opsAlertUser : List Op :=
  [.createPatient patientAlice, .createUser userBob, .createAlert alertHigh]

/-- Table-wise growth: every primary key present in `s` is present in `s1`. -/
def IdsLe (s s1 : Store) : Prop :=
  userIds s ⊆ userIds s1 ∧ patientIds s ⊆ patientIds s1 ∧
  vitalIds s ⊆ vitalIds s1 ∧ labResultIds s ⊆ labResultIds s1 ∧
  riskAssessmentIds s ⊆ riskAssessmentIds s1 ∧ alertIds s ⊆ alertIds s1 ∧
  interventionIds s ⊆ interventionIds s1

/-- The schema invariant of the Clinical Records Store, as declared in
src/models.py: user primary keys are distinct, usernames and emails are
unique, every clinical record references an existing patient, nullable
user references point at existing users, and the CHECK-constrained
numeric columns are in range. -/
def StoreInv (s : Store) : Prop :=
  (userIds s).Nodup ∧
  s.users.Pairwise (fun a b => a.username ≠ b.username ∧ a.email ≠ b.email) ∧
  (∀ v ∈ s.vitals, v.patient_id ∈ patientIds s ∧ v.rangesOk) ∧
  (∀ lr ∈ s.lab_results, lr.patient_id ∈ patientIds s) ∧
  (∀ r ∈ s.risk_assessments,
      r.patient_id ∈ patientIds s ∧ OptRef (userIds s) r.created_by ∧ r.rangeOk) ∧
  (∀ a ∈ s.alerts, a.patient_id ∈ patientIds s ∧ OptRef (userIds s) a.acknowledged_by) ∧
  (∀ i ∈ s.interventions, i.patient_id ∈ patientIds s ∧ OptRef (userIds s) i.clinician_id)

section RowLemmas

variable {α : Type} {getId : α → Nat} {chk : Option DomainError} {l l' : List α} {a : α}

theorem createRow_ok (h : createRow getId chk l a = .ok l') :
    chk = none ∧ getId a ∉ l.map getId ∧ l' = l ++ [a] := by
  cases chk with
  | some e => simp [createRow] at h
  | none =>
    by_cases hid : getId a ∈ l.map getId
    · simp [createRow, hid] at h
    · simp [createRow, hid] at h
      exact ⟨rfl, hid, h.symm⟩

theorem createRow_error_of_chk {e : DomainError} (h : chk = some e) :
    createRow getId chk l a = .error e := by
  simp [createRow, h]

theorem createRow_isOk (hchk : chk = none) (hid : getId a ∉ l.map getId) :
    createRow getId chk l a = .ok (l ++ [a]) := by
  simp [createRow, hchk, hid]

theorem updateRow_ok (h : updateRow getId chk l a = .ok l') :
    (getId a ∈ l.map getId ∧ chk = none ∧ l' = replaceById getId l a) ∨
    (getId a ∉ l.map getId ∧ l' = l) := by
  by_cases hid : getId a ∈ l.map getId
  · cases chk with
    | some e => simp [updateRow, hid] at h
    | none =>
      simp [updateRow, hid] at h
      exact Or.inl ⟨hid, rfl, h.symm⟩
  · simp [updateRow, hid] at h
    exact Or.inr ⟨hid, h.symm⟩

theorem updateRow_error_of_chk {e : DomainError} (h : chk = some e)
    (hid : getId a ∈ l.map getId) : updateRow getId chk l a = .error e := by
  simp [updateRow, hid, h]

theorem map_getId_of_fix (f : α → α) (hf : ∀ x, getId (f x) = getId x) (l : List α) :
    (l.map f).map getId = l.map getId := by
  rw [List.map_map]
  exact List.map_congr_left fun x _ => hf x

theorem map_getId_replaceById (getId : α → Nat) (l : List α) (a : α) :
    (replaceById getId l a).map getId = l.map getId := by
  refine map_getId_of_fix _ (fun x => ?_) l
  by_cases h : getId x = getId a <;> simp [h]

theorem updateRow_ids (h : updateRow getId chk l a = .ok l') :
    l'.map getId = l.map getId := by
  rcases updateRow_ok h with ⟨_, _, rfl⟩ | ⟨_, rfl⟩
  · exact map_getId_replaceById getId l a
  · rfl

theorem mem_replaceById {x : α} (h : x ∈ replaceById getId l a) :
    x = a ∨ x ∈ l := by
  rcases List.mem_map.1 h with ⟨y, hy, hxy⟩
  by_cases hc : getId y = getId a
  · simp [hc] at hxy
    exact Or.inl hxy.symm
  · simp [hc] at hxy
    exact Or.inr (hxy ▸ hy)

end RowLemmas

theorem OptRef.mono {ids ids' : List Nat} {o : Option Nat} (h : ids ⊆ ids')
    (ho : OptRef ids o) : OptRef ids' o := by
  cases o with
  | none => trivial
  | some i => exact h ho

theorem vital_chk_none {s : Store} {v : Vital} :
    Vital.chk s v = none ↔ v.patient_id ∈ patientIds s ∧ v.rangesOk := by
  by_cases h1 : v.patient_id ∈ patientIds s <;>
    by_cases h2 : v.rangesOk <;> simp [Vital.chk, h1, h2]

theorem vital_chk_notFound {s : Store} {v : Vital} :
    Vital.chk s v = some .notFound ↔ v.patient_id ∉ patientIds s := by
  by_cases h1 : v.patient_id ∈ patientIds s <;>
    by_cases h2 : v.rangesOk <;> simp [Vital.chk, h1, h2]

theorem labResult_chk_none {s : Store} {l : LabResult} :
    LabResult.chk s l = none ↔ l.patient_id ∈ patientIds s := by
  by_cases h1 : l.patient_id ∈ patientIds s <;> simp [LabResult.chk, h1]

theorem riskAssessment_chk_none {s : Store} {r : RiskAssessment} :
    RiskAssessment.chk s r = none ↔
      (r.patient_id ∈ patientIds s ∧ OptRef (userIds s) r.created_by) ∧ r.rangeOk := by
  by_cases h1 : r.patient_id ∈ patientIds s ∧ OptRef (userIds s) r.created_by <;>
    by_cases h2 : r.rangeOk <;> simp [RiskAssessment.chk, h1, h2]

theorem alert_chk_none {s : Store} {a : Alert} :
    Alert.chk s a = none ↔
      a.patient_id ∈ patientIds s ∧ OptRef (userIds s) a.acknowledged_by := by
  by_cases h1 : a.patient_id ∈ patientIds s ∧ OptRef (userIds s) a.acknowledged_by <;>
    simp [Alert.chk, h1]

theorem intervention_chk_none {s : Store} {i : Intervention} :
    Intervention.chk s i = none ↔
      i.patient_id ∈ patientIds s ∧ OptRef (userIds s) i.clinician_id := by
  by_cases h1 : i.patient_id ∈ patientIds s ∧ OptRef (userIds s) i.clinician_id <;>
    simp [Intervention.chk, h1]

theorem User.chkAgainst_none {others : List User} {u : User} :
    User.chkAgainst others u = none ↔
      ∀ x ∈ others, x.username ≠ u.username ∧ x.email ≠ u.email := by
  by_cases h : ∀ x ∈ others, x.username ≠ u.username ∧ x.email ≠ u.email <;>
    simp [User.chkAgainst, h]

theorem run_of_error {s : Store} {op : Op} {e : DomainError}
    (h : step s op = .error e) : run s op = s := by
  simp [run, h]

theorem run_of_ok {s s1 : Store} {op : Op} (h : step s op = .ok s1) :
    run s op = s1 := by
  simp [run, h]

theorem Patient.deactivate_id (pid : Nat) (p : Patient) :
    (Patient.deactivate pid p).id = p.id := by
  by_cases hc : p.id = pid <;> simp [Patient.deactivate, hc]

theorem Alert.acknowledge_id (aid uid t : Nat) (a : Alert) :
    (Alert.acknowledge aid uid t a).id = a.id := by
  by_cases hc : a.id = aid <;> simp [Alert.acknowledge, hc]

theorem Alert.resolve_id (aid t : Nat) (a : Alert) :
    (Alert.resolve aid t a).id = a.id := by
  by_cases hc : a.id = aid <;> simp [Alert.resolve, hc]

theorem IdsLe.rfl (s : Store) : IdsLe s s :=
  ⟨fun _ h => h, fun _ h => h, fun _ h => h, fun _ h => h,
   fun _ h => h, fun _ h => h, fun _ h => h⟩

theorem IdsLe.trans {s1 s2 s3 : Store} (h1 : IdsLe s1 s2) (h2 : IdsLe s2 s3) :
    IdsLe s1 s3 :=
  ⟨h1.1.trans h2.1, h1.2.1.trans h2.2.1, h1.2.2.1.trans h2.2.2.1,
   h1.2.2.2.1.trans h2.2.2.2.1, h1.2.2.2.2.1.trans h2.2.2.2.2.1,
   h1.2.2.2.2.2.1.trans h2.2.2.2.2.2.1, h1.2.2.2.2.2.2.trans h2.2.2.2.2.2.2⟩

theorem idsLe_users {s : Store} {l : List User} (h : userIds s ⊆ l.map User.id) :
    IdsLe s { s with users := l } := by
  refine ⟨h, ?_, ?_, ?_, ?_, ?_, ?_⟩ <;> exact fun _ hx => hx

theorem idsLe_patients {s : Store} {l : List Patient}
    (h : patientIds s ⊆ l.map Patient.id) : IdsLe s { s with patients := l } := by
  refine ⟨?_, h, ?_, ?_, ?_, ?_, ?_⟩ <;> exact fun _ hx => hx

theorem idsLe_vitals {s : Store} {l : List Vital}
    (h : vitalIds s ⊆ l.map Vital.id) : IdsLe s { s with vitals := l } := by
  refine ⟨?_, ?_, h, ?_, ?_, ?_, ?_⟩ <;> exact fun _ hx => hx

theorem idsLe_labResults {s : Store} {l : List LabResult}
    (h : labResultIds s ⊆ l.map LabResult.id) :
    IdsLe s { s with lab_results := l } := by
  refine ⟨?_, ?_, ?_, h, ?_, ?_, ?_⟩ <;> exact fun _ hx => hx

theorem idsLe_riskAssessments {s : Store} {l : List RiskAssessment}
    (h : riskAssessmentIds s ⊆ l.map RiskAssessment.id) :
    IdsLe s { s with risk_assessments := l } := by
  refine ⟨?_, ?_, ?_, ?_, h, ?_, ?_⟩ <;> exact fun _ hx => hx

theorem idsLe_alerts {s : Store} {l : List Alert}
    (h : alertIds s ⊆ l.map Alert.id) : IdsLe s { s with alerts := l } := by
  refine ⟨?_, ?_, ?_, ?_, ?_, h, ?_⟩ <;> exact fun _ hx => hx

theorem idsLe_interventions {s : Store} {l : List Intervention}
    (h : interventionIds s ⊆ l.map Intervention.id) :
    IdsLe s { s with interventions := l } := by
  refine ⟨?_, ?_, ?_, ?_, ?_, ?_, h⟩ <;> exact fun _ hx => hx

/-- No operation of the Clinical Records Store removes a row: a failed
operation leaves the store unchanged, an insert appends, an update or a
lifecycle operation rewrites rows in place preserving their keys. -/
theorem run_idsLe (s : Store) (op : Op) : IdsLe s (run s op) := by
  cases op with
  | createUser u =>
    cases h : createRow User.id (User.chkAgainst s.users u) s.users u with
    | error e =>
      have hst : step s (.createUser u) = .error e := by simp [step, h, Except.map]
      rw [run_of_error hst]; exact IdsLe.rfl s
    | ok l =>
      have hst : step s (.createUser u) = .ok { s with users := l } := by
        simp [step, h, Except.map]
      rw [run_of_ok hst]
      obtain ⟨-, -, rfl⟩ := createRow_ok h
      exact idsLe_users (by simp [userIds, List.subset_append_left])
  | createPatient p =>
    cases h : createRow Patient.id (Patient.chkAgainst s.patients p) s.patients p with
    | error e =>
      have hst : step s (.createPatient p) = .error e := by simp [step, h, Except.map]
      rw [run_of_error hst]; exact IdsLe.rfl s
    | ok l =>
      have hst : step s (.createPatient p) = .ok { s with patients := l } := by
        simp [step, h, Except.map]
      rw [run_of_ok hst]
      obtain ⟨-, -, rfl⟩ := createRow_ok h
      exact idsLe_patients (by simp [patientIds, List.subset_append_left])
  | createVital v =>
    cases h : createRow Vital.id (Vital.chk s v) s.vitals v with
    | error e =>
      have hst : step s (.createVital v) = .error e := by simp [step, h, Except.map]
      rw [run_of_error hst]; exact IdsLe.rfl s
    | ok l =>
      have hst : step s (.createVital v) = .ok { s with vitals := l } := by
        simp [step, h, Except.map]
      rw [run_of_ok hst]
      obtain ⟨-, -, rfl⟩ := createRow_ok h
      exact idsLe_vitals (by simp [vitalIds, List.subset_append_left])
  | createLabResult lr =>
    cases h : createRow LabResult.id (LabResult.chk s lr) s.lab_results lr with
    | error e =>
      have hst : step s (.createLabResult lr) = .error e := by simp [step, h, Except.map]
      rw [run_of_error hst]; exact IdsLe.rfl s
    | ok l =>
      have hst : step s (.createLabResult lr) = .ok { s with lab_results := l } := by
        simp [step, h, Except.map]
      rw [run_of_ok hst]
      obtain ⟨-, -, rfl⟩ := createRow_ok h
      exact idsLe_labResults (by simp [labResultIds, List.subset_append_left])
  | createRiskAssessment r =>
    cases h : createRow RiskAssessment.id (RiskAssessment.chk s r) s.risk_assessments r with
    | error e =>
      have hst : step s (.createRiskAssessment r) = .error e := by simp [step, h, Except.map]
      rw [run_of_error hst]; exact IdsLe.rfl s
    | ok l =>
      have hst : step s (.createRiskAssessment r) = .ok { s with risk_assessments := l } := by
        simp [step, h, Except.map]
      rw [run_of_ok hst]
      obtain ⟨-, -, rfl⟩ := createRow_ok h
      exact idsLe_riskAssessments (by simp [riskAssessmentIds, List.subset_append_left])
  | createAlert a =>
    cases h : createRow Alert.id (Alert.chk s a) s.alerts a with
    | error e =>
      have hst : step s (.createAlert a) = .error e := by simp [step, h, Except.map]
      rw [run_of_error hst]; exact IdsLe.rfl s
    | ok l =>
      have hst : step s (.createAlert a) = .ok { s with alerts := l } := by
        simp [step, h, Except.map]
      rw [run_of_ok hst]
      obtain ⟨-, -, rfl⟩ := createRow_ok h
      exact idsLe_alerts (by simp [alertIds, List.subset_append_left])
  | createIntervention i =>
    cases h : createRow Intervention.id (Intervention.chk s i) s.interventions i with
    | error e =>
      have hst : step s (.createIntervention i) = .error e := by simp [step, h, Except.map]
      rw [run_of_error hst]; exact IdsLe.rfl s
    | ok l =>
      have hst : step s (.createIntervention i) = .ok { s with interventions := l } := by
        simp [step, h, Except.map]
      rw [run_of_ok hst]
      obtain ⟨-, -, rfl⟩ := createRow_ok h
      exact idsLe_interventions (by simp [interventionIds, List.subset_append_left])
  | updateUser u =>
    cases h : updateRow User.id (User.chkAgainst (User.others s.users u) u) s.users u with
    | error e =>
      have hst : step s (.updateUser u) = .error e := by simp [step, h, Except.map]
      rw [run_of_error hst]; exact IdsLe.rfl s
    | ok l =>
      have hst : step s (.updateUser u) = .ok { s with users := l } := by
        simp [step, h, Except.map]
      rw [run_of_ok hst]
      exact idsLe_users (by rw [updateRow_ids h]; exact fun _ hx => hx)
  | updatePatient p =>
    cases h : updateRow Patient.id (Patient.chkAgainst (Patient.others s.patients p) p) s.patients p with
    | error e =>
      have hst : step s (.updatePatient p) = .error e := by simp [step, h, Except.map]
      rw [run_of_error hst]; exact IdsLe.rfl s
    | ok l =>
      have hst : step s (.updatePatient p) = .ok { s with patients := l } := by
        simp [step, h, Except.map]
      rw [run_of_ok hst]
      exact idsLe_patients (by rw [updateRow_ids h]; exact fun _ hx => hx)
  | updateVital v =>
    cases h : updateRow Vital.id (Vital.chk s v) s.vitals v with
    | error e =>
      have hst : step s (.updateVital v) = .error e := by simp [step, h, Except.map]
      rw [run_of_error hst]; exact IdsLe.rfl s
    | ok l =>
      have hst : step s (.updateVital v) = .ok { s with vitals := l } := by
        simp [step, h, Except.map]
      rw [run_of_ok hst]
      exact idsLe_vitals (by rw [updateRow_ids h]; exact fun _ hx => hx)
  | updateLabResult lr =>
    cases h : updateRow LabResult.id (LabResult.chk s lr) s.lab_results lr with
    | error e =>
      have hst : step s (.updateLabResult lr) = .error e := by simp [step, h, Except.map]
      rw [run_of_error hst]; exact IdsLe.rfl s
    | ok l =>
      have hst : step s (.updateLabResult lr) = .ok { s with lab_results := l } := by
        simp [step, h, Except.map]
      rw [run_of_ok hst]
      exact idsLe_labResults (by rw [updateRow_ids h]; exact fun _ hx => hx)
  | updateRiskAssessment r =>
    cases h : updateRow RiskAssessment.id (RiskAssessment.chk s r) s.risk_assessments r with
    | error e =>
      have hst : step s (.updateRiskAssessment r) = .error e := by simp [step, h, Except.map]
      rw [run_of_error hst]; exact IdsLe.rfl s
    | ok l =>
      have hst : step s (.updateRiskAssessment r) = .ok { s with risk_assessments := l } := by
        simp [step, h, Except.map]
      rw [run_of_ok hst]
      exact idsLe_riskAssessments (by rw [updateRow_ids h]; exact fun _ hx => hx)
  | updateAlert a =>
    cases h : updateRow Alert.id (Alert.chk s a) s.alerts a with
    | error e =>
      have hst : step s (.updateAlert a) = .error e := by simp [step, h, Except.map]
      rw [run_of_error hst]; exact IdsLe.rfl s
    | ok l =>
      have hst : step s (.updateAlert a) = .ok { s with alerts := l } := by
        simp [step, h, Except.map]
      rw [run_of_ok hst]
      exact idsLe_alerts (by rw [updateRow_ids h]; exact fun _ hx => hx)
  | updateIntervention i =>
    cases h : updateRow Intervention.id (Intervention.chk s i) s.interventions i with
    | error e =>
      have hst : step s (.updateIntervention i) = .error e := by simp [step, h, Except.map]
      rw [run_of_error hst]; exact IdsLe.rfl s
    | ok l =>
      have hst : step s (.updateIntervention i) = .ok { s with interventions := l } := by
        simp [step, h, Except.map]
      rw [run_of_ok hst]
      exact idsLe_interventions (by rw [updateRow_ids h]; exact fun _ hx => hx)
  | deactivatePatient pid =>
    by_cases h : pid ∈ patientIds s
    · have hst : step s (.deactivatePatient pid) =
          .ok { s with patients := s.patients.map (Patient.deactivate pid) } := by
        simp [step, h]
      rw [run_of_ok hst]
      refine idsLe_patients ?_
      have hids : (s.patients.map (Patient.deactivate pid)).map Patient.id =
          s.patients.map Patient.id :=
        map_getId_of_fix _ (Patient.deactivate_id pid) s.patients
      rw [hids]; exact fun _ hx => hx
    · have hst : step s (.deactivatePatient pid) = .error .notFound := by simp [step, h]
      rw [run_of_error hst]; exact IdsLe.rfl s
  | acknowledgeAlert aid uid t =>
    by_cases h1 : aid ∈ alertIds s
    · by_cases h2 : uid ∈ userIds s
      · have hst : step s (.acknowledgeAlert aid uid t) =
            .ok { s with alerts := s.alerts.map (Alert.acknowledge aid uid t) } := by
          simp [step, h1, h2]
        rw [run_of_ok hst]
        refine idsLe_alerts ?_
        have hids : (s.alerts.map (Alert.acknowledge aid uid t)).map Alert.id =
            s.alerts.map Alert.id :=
          map_getId_of_fix _ (Alert.acknowledge_id aid uid t) s.alerts
        rw [hids]; exact fun _ hx => hx
      · have hst : step s (.acknowledgeAlert aid uid t) = .error .notFound := by
          simp [step, h1, h2]
        rw [run_of_error hst]; exact IdsLe.rfl s
    · have hst : step s (.acknowledgeAlert aid uid t) = .error .notFound := by
        simp [step, h1]
      rw [run_of_error hst]; exact IdsLe.rfl s
  | resolveAlert aid t =>
    by_cases h : aid ∈ alertIds s
    · have hst : step s (.resolveAlert aid t) =
          .ok { s with alerts := s.alerts.map (Alert.resolve aid t) } := by
        simp [step, h]
      rw [run_of_ok hst]
      refine idsLe_alerts ?_
      have hids : (s.alerts.map (Alert.resolve aid t)).map Alert.id =
          s.alerts.map Alert.id :=
        map_getId_of_fix _ (Alert.resolve_id aid t) s.alerts
      rw [hids]; exact fun _ hx => hx
    · have hst : step s (.resolveAlert aid t) = .error .notFound := by simp [step, h]
      rw [run_of_error hst]; exact IdsLe.rfl s

/-- Row preservation over whole operation sequences. -/
theorem runSeq_idsLe (s : Store) (ops : List Op) : IdsLe s (runSeq s ops) := by
  induction ops generalizing s with
  | nil => exact IdsLe.rfl s
  | cons op ops ih =>
    exact IdsLe.trans (run_idsLe s op) (ih (run s op))

theorem storeInv_empty : StoreInv emptyStore := by
  refine ⟨?_, ?_, ?_, ?_, ?_, ?_, ?_⟩ <;> simp [emptyStore, userIds]

theorem storeInv_createUser (s : Store) (u : User) (hInv : StoreInv s) :
    StoreInv (run s (.createUser u)) := by
  obtain ⟨hNd, hUU, hV, hL, hR, hA, hI⟩ := hInv
  cases h : createRow User.id (User.chkAgainst s.users u) s.users u with
  | error e =>
    rw [run_of_error (show step s (.createUser u) = .error e by simp [step, h, Except.map])]
    exact ⟨hNd, hUU, hV, hL, hR, hA, hI⟩
  | ok l =>
    rw [run_of_ok (show step s (.createUser u) = .ok { s with users := l } by
      simp [step, h, Except.map])]
    obtain ⟨hchk, hfresh, rfl⟩ := createRow_ok h
    have hdist := User.chkAgainst_none.1 hchk
    have husub : userIds s ⊆ userIds { s with users := s.users ++ [u] } := by
      simp [userIds, List.subset_append_left]
    refine ⟨?_, ?_, hV, hL, ?_, ?_, ?_⟩
    · show ((s.users ++ [u]).map User.id).Nodup
      rw [List.map_append, List.nodup_append]
      refine ⟨hNd, List.nodup_singleton _, ?_⟩
      intro x hx hx2
      simp only [List.map_cons, List.map_nil, List.mem_singleton] at hx2
      exact hfresh (hx2 ▸ hx)
    · show (s.users ++ [u]).Pairwise _
      rw [List.pairwise_append]
      refine ⟨hUU, List.pairwise_singleton _ _, ?_⟩
      intro a ha b hb
      rw [List.mem_singleton] at hb
      subst hb
      exact hdist a ha
    · intro r hr
      obtain ⟨hp, ho, hs⟩ := hR r hr
      exact ⟨hp, OptRef.mono husub ho, hs⟩
    · intro a ha
      obtain ⟨hp, ho⟩ := hA a ha
      exact ⟨hp, OptRef.mono husub ho⟩
    · intro i hi
      obtain ⟨hp, ho⟩ := hI i hi
      exact ⟨hp, OptRef.mono husub ho⟩

theorem storeInv_updateUser (s : Store) (u : User) (hInv : StoreInv s) :
    StoreInv (run s (.updateUser u)) := by
  obtain ⟨hNd, hUU, hV, hL, hR, hA, hI⟩ := hInv
  cases h : updateRow User.id (User.chkAgainst (User.others s.users u) u) s.users u with
  | error e =>
    rw [run_of_error (show step s (.updateUser u) = .error e by simp [step, h, Except.map])]
    exact ⟨hNd, hUU, hV, hL, hR, hA, hI⟩
  | ok l =>
    rw [run_of_ok (show step s (.updateUser u) = .ok { s with users := l } by
      simp [step, h, Except.map])]
    rcases updateRow_ok h with ⟨hmem, hchk, rfl⟩ | ⟨hnm, rfl⟩
    · have hids : (replaceById User.id s.users u).map User.id = s.users.map User.id :=
        map_getId_replaceById User.id s.users u
      have hdist := User.chkAgainst_none.1 hchk
      have hueq : userIds { s with users := replaceById User.id s.users u } = userIds s := by
        simpa [userIds] using hids
      refine ⟨?_, ?_, hV, hL, ?_, ?_, ?_⟩
      · show ((replaceById User.id s.users u).map User.id).Nodup
        rw [hids]; exact hNd
      · show (replaceById User.id s.users u).Pairwise _
        unfold replaceById
        rw [List.pairwise_map]
        refine List.Pairwise.imp_of_mem ?_ hUU
        intro a b ha hb hab
        by_cases hca : User.id a = User.id u
        · by_cases hcb : User.id b = User.id u
          · have hab2 : a = b := List.inj_on_of_nodup_map hNd ha hb (hca.trans hcb.symm)
            subst hab2
            exact absurd rfl hab.1
          · rw [if_pos hca, if_neg hcb]
            have hbo : b ∈ User.others s.users u := by
              simp [User.others, List.mem_filter, hb, hcb]
            exact ⟨(hdist b hbo).1.symm, (hdist b hbo).2.symm⟩
        · by_cases hcb : User.id b = User.id u
          · rw [if_neg hca, if_pos hcb]
            have hao : a ∈ User.others s.users u := by
              simp [User.others, List.mem_filter, ha, hca]
            exact hdist a hao
          · rw [if_neg hca, if_neg hcb]
            exact hab
      · intro r hr
        obtain ⟨hp, ho, hs⟩ := hR r hr
        exact ⟨hp, by rw [hueq]; exact ho, hs⟩
      · intro a ha
        obtain ⟨hp, ho⟩ := hA a ha
        exact ⟨hp, by rw [hueq]; exact ho⟩
      · intro i hi
        obtain ⟨hp, ho⟩ := hI i hi
        exact ⟨hp, by rw [hueq]; exact ho⟩
    · exact ⟨hNd, hUU, hV, hL, hR, hA, hI⟩

theorem storeInv_createPatient (s : Store) (p : Patient) (hInv : StoreInv s) :
    StoreInv (run s (.createPatient p)) := by
  obtain ⟨hNd, hUU, hV, hL, hR, hA, hI⟩ := hInv
  cases h : createRow Patient.id (Patient.chkAgainst s.patients p) s.patients p with
  | error e =>
    rw [run_of_error (show step s (.createPatient p) = .error e by simp [step, h, Except.map])]
    exact ⟨hNd, hUU, hV, hL, hR, hA, hI⟩
  | ok l =>
    rw [run_of_ok (show step s (.createPatient p) = .ok { s with patients := l } by
      simp [step, h, Except.map])]
    obtain ⟨-, -, rfl⟩ := createRow_ok h
    have hpsub : patientIds s ⊆ patientIds { s with patients := s.patients ++ [p] } := by
      simp [patientIds, List.subset_append_left]
    refine ⟨hNd, hUU, ?_, ?_, ?_, ?_, ?_⟩
    · intro v hv
      obtain ⟨hp2, hr⟩ := hV v hv
      exact ⟨hpsub hp2, hr⟩
    · intro lr hlr
      exact hpsub (hL lr hlr)
    · intro r hr
      obtain ⟨hp2, ho, hs⟩ := hR r hr
      exact ⟨hpsub hp2, ho, hs⟩
    · intro a ha
      obtain ⟨hp2, ho⟩ := hA a ha
      exact ⟨hpsub hp2, ho⟩
    · intro i hi
      obtain ⟨hp2, ho⟩ := hI i hi
      exact ⟨hpsub hp2, ho⟩

theorem storeInv_updatePatient (s : Store) (p : Patient) (hInv : StoreInv s) :
    StoreInv (run s (.updatePatient p)) := by
  obtain ⟨hNd, hUU, hV, hL, hR, hA, hI⟩ := hInv
  cases h : updateRow Patient.id (Patient.chkAgainst (Patient.others s.patients p) p)
      s.patients p with
  | error e =>
    rw [run_of_error (show step s (.updatePatient p) = .error e by simp [step, h, Except.map])]
    exact ⟨hNd, hUU, hV, hL, hR, hA, hI⟩
  | ok l =>
    rw [run_of_ok (show step s (.updatePatient p) = .ok { s with patients := l } by
      simp [step, h, Except.map])]
    have hpe : patientIds { s with patients := l } = patientIds s := by
      simpa [patientIds] using updateRow_ids h
    refine ⟨hNd, hUU, ?_, ?_, ?_, ?_, ?_⟩
    · intro v hv
      obtain ⟨hp2, hr⟩ := hV v hv
      exact ⟨by rw [hpe]; exact hp2, hr⟩
    · intro lr hlr
      rw [hpe]
      exact hL lr hlr
    · intro r hr
      obtain ⟨hp2, ho, hs⟩ := hR r hr
      exact ⟨by rw [hpe]; exact hp2, ho, hs⟩
    · intro a ha
      obtain ⟨hp2, ho⟩ := hA a ha
      exact ⟨by rw [hpe]; exact hp2, ho⟩
    · intro i hi
      obtain ⟨hp2, ho⟩ := hI i hi
      exact ⟨by rw [hpe]; exact hp2, ho⟩

theorem storeInv_deactivatePatient (s : Store) (pid : Nat) (hInv : StoreInv s) :
    StoreInv (run s (.deactivatePatient pid)) := by
  obtain ⟨hNd, hUU, hV, hL, hR, hA, hI⟩ := hInv
  by_cases h : pid ∈ patientIds s
  · rw [run_of_ok (show step s (.deactivatePatient pid) =
      .ok { s with patients := s.patients.map (Patient.deactivate pid) } by simp [step, h])]
    have hpe : patientIds { s with patients := s.patients.map (Patient.deactivate pid) } =
        patientIds s := by
      simpa [patientIds] using map_getId_of_fix _ (Patient.deactivate_id pid) s.patients
    refine ⟨hNd, hUU, ?_, ?_, ?_, ?_, ?_⟩
    · intro v hv
      obtain ⟨hp2, hr⟩ := hV v hv
      exact ⟨by rw [hpe]; exact hp2, hr⟩
    · intro lr hlr
      rw [hpe]
      exact hL lr hlr
    · intro r hr
      obtain ⟨hp2, ho, hs⟩ := hR r hr
      exact ⟨by rw [hpe]; exact hp2, ho, hs⟩
    · intro a ha
      obtain ⟨hp2, ho⟩ := hA a ha
      exact ⟨by rw [hpe]; exact hp2, ho⟩
    · intro i hi
      obtain ⟨hp2, ho⟩ := hI i hi
      exact ⟨by rw [hpe]; exact hp2, ho⟩
  · rw [run_of_error (show step s (.deactivatePatient pid) = .error .notFound by
      simp [step, h])]
    exact ⟨hNd, hUU, hV, hL, hR, hA, hI⟩

theorem storeInv_createVital (s : Store) (v : Vital) (hInv : StoreInv s) :
    StoreInv (run s (.createVital v)) := by
  obtain ⟨hNd, hUU, hV, hL, hR, hA, hI⟩ := hInv
  cases h : createRow Vital.id (Vital.chk s v) s.vitals v with
  | error e =>
    rw [run_of_error (show step s (.createVital v) = .error e by simp [step, h, Except.map])]
    exact ⟨hNd, hUU, hV, hL, hR, hA, hI⟩
  | ok l =>
    rw [run_of_ok (show step s (.createVital v) = .ok { s with vitals := l } by
      simp [step, h, Except.map])]
    obtain ⟨hchk, -, rfl⟩ := createRow_ok h
    obtain ⟨hp, hr⟩ := vital_chk_none.1 hchk
    refine ⟨hNd, hUU, ?_, hL, hR, hA, hI⟩
    intro x hx
    rcases List.mem_append.1 hx with hx | hx
    · exact hV x hx
    · rw [List.mem_singleton] at hx
      subst hx
      exact ⟨hp, hr⟩

theorem storeInv_updateVital (s : Store) (v : Vital) (hInv : StoreInv s) :
    StoreInv (run s (.updateVital v)) := by
  obtain ⟨hNd, hUU, hV, hL, hR, hA, hI⟩ := hInv
  cases h : updateRow Vital.id (Vital.chk s v) s.vitals v with
  | error e =>
    rw [run_of_error (show step s (.updateVital v) = .error e by simp [step, h, Except.map])]
    exact ⟨hNd, hUU, hV, hL, hR, hA, hI⟩
  | ok l =>
    rw [run_of_ok (show step s (.updateVital v) = .ok { s with vitals := l } by
      simp [step, h, Except.map])]
    rcases updateRow_ok h with ⟨-, hchk, rfl⟩ | ⟨-, rfl⟩
    · obtain ⟨hp, hr⟩ := vital_chk_none.1 hchk
      refine ⟨hNd, hUU, ?_, hL, hR, hA, hI⟩
      intro x hx
      rcases mem_replaceById hx with rfl | hx
      · exact ⟨hp, hr⟩
      · exact hV x hx
    · exact ⟨hNd, hUU, hV, hL, hR, hA, hI⟩

theorem storeInv_createLabResult (s : Store) (lr : LabResult) (hInv : StoreInv s) :
    StoreInv (run s (.createLabResult lr)) := by
  obtain ⟨hNd, hUU, hV, hL, hR, hA, hI⟩ := hInv
  cases h : createRow LabResult.id (LabResult.chk s lr) s.lab_results lr with
  | error e =>
    rw [run_of_error (show step s (.createLabResult lr) = .error e by
      simp [step, h, Except.map])]
    exact ⟨hNd, hUU, hV, hL, hR, hA, hI⟩
  | ok l =>
    rw [run_of_ok (show step s (.createLabResult lr) = .ok { s with lab_results := l } by
      simp [step, h, Except.map])]
    obtain ⟨hchk, -, rfl⟩ := createRow_ok h
    have hp := labResult_chk_none.1 hchk
    refine ⟨hNd, hUU, hV, ?_, hR, hA, hI⟩
    intro x hx
    rcases List.mem_append.1 hx with hx | hx
    · exact hL x hx
    · rw [List.mem_singleton] at hx
      subst hx
      exact hp

theorem storeInv_updateLabResult (s : Store) (lr : LabResult) (hInv : StoreInv s) :
    StoreInv (run s (.updateLabResult lr)) := by
  obtain ⟨hNd, hUU, hV, hL, hR, hA, hI⟩ := hInv
  cases h : updateRow LabResult.id (LabResult.chk s lr) s.lab_results lr with
  | error e =>
    rw [run_of_error (show step s (.updateLabResult lr) = .error e by
      simp [step, h, Except.map])]
    exact ⟨hNd, hUU, hV, hL, hR, hA, hI⟩
  | ok l =>
    rw [run_of_ok (show step s (.updateLabResult lr) = .ok { s with lab_results := l } by
      simp [step, h, Except.map])]
    rcases updateRow_ok h with ⟨-, hchk, rfl⟩ | ⟨-, rfl⟩
    · have hp := labResult_chk_none.1 hchk
      refine ⟨hNd, hUU, hV, ?_, hR, hA, hI⟩
      intro x hx
      rcases mem_replaceById hx with rfl | hx
      · exact hp
      · exact hL x hx
    · exact ⟨hNd, hUU, hV, hL, hR, hA, hI⟩

theorem storeInv_createRiskAssessment (s : Store) (r : RiskAssessment) (hInv : StoreInv s) :
    StoreInv (run s (.createRiskAssessment r)) := by
  obtain ⟨hNd, hUU, hV, hL, hR, hA, hI⟩ := hInv
  cases h : createRow RiskAssessment.id (RiskAssessment.chk s r) s.risk_assessments r with
  | error e =>
    rw [run_of_error (show step s (.createRiskAssessment r) = .error e by
      simp [step, h, Except.map])]
    exact ⟨hNd, hUU, hV, hL, hR, hA, hI⟩
  | ok l =>
    rw [run_of_ok (show step s (.createRiskAssessment r) =
      .ok { s with risk_assessments := l } by simp [step, h, Except.map])]
    obtain ⟨hchk, -, rfl⟩ := createRow_ok h
    obtain ⟨⟨hp, ho⟩, hs⟩ := riskAssessment_chk_none.1 hchk
    refine ⟨hNd, hUU, hV, hL, ?_, hA, hI⟩
    intro x hx
    rcases List.mem_append.1 hx with hx | hx
    · exact hR x hx
    · rw [List.mem_singleton] at hx
      subst hx
      exact ⟨hp, ho, hs⟩

theorem storeInv_updateRiskAssessment (s : Store) (r : RiskAssessment) (hInv : StoreInv s) :
    StoreInv (run s (.updateRiskAssessment r)) := by
  obtain ⟨hNd, hUU, hV, hL, hR, hA, hI⟩ := hInv
  cases h : updateRow RiskAssessment.id (RiskAssessment.chk s r) s.risk_assessments r with
  | error e =>
    rw [run_of_error (show step s (.updateRiskAssessment r) = .error e by
      simp [step, h, Except.map])]
    exact ⟨hNd, hUU, hV, hL, hR, hA, hI⟩
  | ok l =>
    rw [run_of_ok (show step s (.updateRiskAssessment r) =
      .ok { s with risk_assessments := l } by simp [step, h, Except.map])]
    rcases updateRow_ok h with ⟨-, hchk, rfl⟩ | ⟨-, rfl⟩
    · obtain ⟨⟨hp, ho⟩, hs⟩ := riskAssessment_chk_none.1 hchk
      refine ⟨hNd, hUU, hV, hL, ?_, hA, hI⟩
      intro x hx
      rcases mem_replaceById hx with rfl | hx
      · exact ⟨hp, ho, hs⟩
      · exact hR x hx
    · exact ⟨hNd, hUU, hV, hL, hR, hA, hI⟩

theorem storeInv_createAlert (s : Store) (a : Alert) (hInv : StoreInv s) :
    StoreInv (run s (.createAlert a)) := by
  obtain ⟨hNd, hUU, hV, hL, hR, hA, hI⟩ := hInv
  cases h : createRow Alert.id (Alert.chk s a) s.alerts a with
  | error e =>
    rw [run_of_error (show step s (.createAlert a) = .error e by simp [step, h, Except.map])]
    exact ⟨hNd, hUU, hV, hL, hR, hA, hI⟩
  | ok l =>
    rw [run_of_ok (show step s (.createAlert a) = .ok { s with alerts := l } by
      simp [step, h, Except.map])]
    obtain ⟨hchk, -, rfl⟩ := createRow_ok h
    obtain ⟨hp, ho⟩ := alert_chk_none.1 hchk
    refine ⟨hNd, hUU, hV, hL, hR, ?_, hI⟩
    intro x hx
    rcases List.mem_append.1 hx with hx | hx
    · exact hA x hx
    · rw [List.mem_singleton] at hx
      subst hx
      exact ⟨hp, ho⟩

theorem storeInv_updateAlert (s : Store) (a : Alert) (hInv : StoreInv s) :
    StoreInv (run s (.updateAlert a)) := by
  obtain ⟨hNd, hUU, hV, hL, hR, hA, hI⟩ := hInv
  cases h : updateRow Alert.id (Alert.chk s a) s.alerts a with
  | error e =>
    rw [run_of_error (show step s (.updateAlert a) = .error e by simp [step, h, Except.map])]
    exact ⟨hNd, hUU, hV, hL, hR, hA, hI⟩
  | ok l =>
    rw [run_of_ok (show step s (.updateAlert a) = .ok { s with alerts := l } by
      simp [step, h, Except.map])]
    rcases updateRow_ok h with ⟨-, hchk, rfl⟩ | ⟨-, rfl⟩
    · obtain ⟨hp, ho⟩ := alert_chk_none.1 hchk
      refine ⟨hNd, hUU, hV, hL, hR, ?_, hI⟩
      intro x hx
      rcases mem_replaceById hx with rfl | hx
      · exact ⟨hp, ho⟩
      · exact hA x hx
    · exact ⟨hNd, hUU, hV, hL, hR, hA, hI⟩

theorem storeInv_createIntervention (s : Store) (i : Intervention) (hInv : StoreInv s) :
    StoreInv (run s (.createIntervention i)) := by
  obtain ⟨hNd, hUU, hV, hL, hR, hA, hI⟩ := hInv
  cases h : createRow Intervention.id (Intervention.chk s i) s.interventions i with
  | error e =>
    rw [run_of_error (show step s (.createIntervention i) = .error e by
      simp [step, h, Except.map])]
    exact ⟨hNd, hUU, hV, hL, hR, hA, hI⟩
  | ok l =>
    rw [run_of_ok (show step s (.createIntervention i) = .ok { s with interventions := l } by
      simp [step, h, Except.map])]
    obtain ⟨hchk, -, rfl⟩ := createRow_ok h
    obtain ⟨hp, ho⟩ := intervention_chk_none.1 hchk
    refine ⟨hNd, hUU, hV, hL, hR, hA, ?_⟩
    intro x hx
    rcases List.mem_append.1 hx with hx | hx
    · exact hI x hx
    · rw [List.mem_singleton] at hx
      subst hx
      exact ⟨hp, ho⟩

theorem storeInv_updateIntervention (s : Store) (i : Intervention) (hInv : StoreInv s) :
    StoreInv (run s (.updateIntervention i)) := by
  obtain ⟨hNd, hUU, hV, hL, hR, hA, hI⟩ := hInv
  cases h : updateRow Intervention.id (Intervention.chk s i) s.interventions i with
  | error e =>
    rw [run_of_error (show step s (.updateIntervention i) = .error e by
      simp [step, h, Except.map])]
    exact ⟨hNd, hUU, hV, hL, hR, hA, hI⟩
  | ok l =>
    rw [run_of_ok (show step s (.updateIntervention i) = .ok { s with interventions := l } by
      simp [step, h, Except.map])]
    rcases updateRow_ok h with ⟨-, hchk, rfl⟩ | ⟨-, rfl⟩
    · obtain ⟨hp, ho⟩ := intervention_chk_none.1 hchk
      refine ⟨hNd, hUU, hV, hL, hR, hA, ?_⟩
      intro x hx
      rcases mem_replaceById hx with rfl | hx
      · exact ⟨hp, ho⟩
      · exact hI x hx
    · exact ⟨hNd, hUU, hV, hL, hR, hA, hI⟩

theorem Alert.acknowledge_patient_id (aid uid t : Nat) (a : Alert) :
    (Alert.acknowledge aid uid t a).patient_id = a.patient_id := by
  by_cases hc : a.id = aid <;> simp [Alert.acknowledge, hc]

theorem Alert.acknowledge_ackBy (aid uid t : Nat) (a : Alert) :
    (Alert.acknowledge aid uid t a).acknowledged_by =
      if a.id = aid then some uid else a.acknowledged_by := by
  by_cases hc : a.id = aid <;> simp [Alert.acknowledge, hc]

theorem Alert.resolve_patient_id (aid t : Nat) (a : Alert) :
    (Alert.resolve aid t a).patient_id = a.patient_id := by
  by_cases hc : a.id = aid <;> simp [Alert.resolve, hc]

theorem Alert.resolve_ackBy (aid t : Nat) (a : Alert) :
    (Alert.resolve aid t a).acknowledged_by = a.acknowledged_by := by
  by_cases hc : a.id = aid <;> simp [Alert.resolve, hc]

theorem storeInv_acknowledgeAlert (s : Store) (aid uid t : Nat) (hInv : StoreInv s) :
    StoreInv (run s (.acknowledgeAlert aid uid t)) := by
  obtain ⟨hNd, hUU, hV, hL, hR, hA, hI⟩ := hInv
  by_cases h1 : aid ∈ alertIds s
  · by_cases h2 : uid ∈ userIds s
    · rw [run_of_ok (show step s (.acknowledgeAlert aid uid t) =
        .ok { s with alerts := s.alerts.map (Alert.acknowledge aid uid t) } by
        simp [step, h1, h2])]
      refine ⟨hNd, hUU, hV, hL, hR, ?_, hI⟩
      intro x hx
      rcases List.mem_map.1 hx with ⟨y, hy, rfl⟩
      obtain ⟨hp, ho⟩ := hA y hy
      refine ⟨by rw [Alert.acknowledge_patient_id]; exact hp, ?_⟩
      rw [Alert.acknowledge_ackBy]
      by_cases hc : y.id = aid
      · rw [if_pos hc]
        exact h2
      · rw [if_neg hc]
        exact ho
    · rw [run_of_error (show step s (.acknowledgeAlert aid uid t) = .error .notFound by
        simp [step, h1, h2])]
      exact ⟨hNd, hUU, hV, hL, hR, hA, hI⟩
  · rw [run_of_error (show step s (.acknowledgeAlert aid uid t) = .error .notFound by
      simp [step, h1])]
    exact ⟨hNd, hUU, hV, hL, hR, hA, hI⟩

theorem storeInv_resolveAlert (s : Store) (aid t : Nat) (hInv : StoreInv s) :
    StoreInv (run s (.resolveAlert aid t)) := by
  obtain ⟨hNd, hUU, hV, hL, hR, hA, hI⟩ := hInv
  by_cases h : aid ∈ alertIds s
  · rw [run_of_ok (show step s (.resolveAlert aid t) =
      .ok { s with alerts := s.alerts.map (Alert.resolve aid t) } by simp [step, h])]
    refine ⟨hNd, hUU, hV, hL, hR, ?_, hI⟩
    intro x hx
    rcases List.mem_map.1 hx with ⟨y, hy, rfl⟩
    obtain ⟨hp, ho⟩ := hA y hy
    exact ⟨by rw [Alert.resolve_patient_id]; exact hp,
           by rw [Alert.resolve_ackBy]; exact ho⟩
  · rw [run_of_error (show step s (.resolveAlert aid t) = .error .notFound by
      simp [step, h])]
    exact ⟨hNd, hUU, hV, hL, hR, hA, hI⟩

/-- Every operation of the Clinical Records Store preserves the schema
invariant. -/
theorem storeInv_run (s : Store) (op : Op) (hInv : StoreInv s) : StoreInv (run s op) := by
  cases op with
  | createUser u => exact storeInv_createUser s u hInv
  | createPatient p => exact storeInv_createPatient s p hInv
  | createVital v => exact storeInv_createVital s v hInv
  | createLabResult lr => exact storeInv_createLabResult s lr hInv
  | createRiskAssessment r => exact storeInv_createRiskAssessment s r hInv
  | createAlert a => exact storeInv_createAlert s a hInv
  | createIntervention i => exact storeInv_createIntervention s i hInv
  | updateUser u => exact storeInv_updateUser s u hInv
  | updatePatient p => exact storeInv_updatePatient s p hInv
  | updateVital v => exact storeInv_updateVital s v hInv
  | updateLabResult lr => exact storeInv_updateLabResult s lr hInv
  | updateRiskAssessment r => exact storeInv_updateRiskAssessment s r hInv
  | updateAlert a => exact storeInv_updateAlert s a hInv
  | updateIntervention i => exact storeInv_updateIntervention s i hInv
  | deactivatePatient pid => exact storeInv_deactivatePatient s pid hInv
  | acknowledgeAlert aid uid t => exact storeInv_acknowledgeAlert s aid uid t hInv
  | resolveAlert aid t => exact storeInv_resolveAlert s aid t hInv

theorem storeInv_runSeq (s : Store) (ops : List Op) (hInv : StoreInv s) :
    StoreInv (runSeq s ops) := by
  induction ops generalizing s with
  | nil => exact hInv
  | cons op ops ih => exact ih (run s op) (storeInv_run s op hInv)

/-- Every reachable store satisfies the schema invariant. -/
theorem reachable_storeInv {s : Store} (h : Reachable s) : StoreInv s := by
  obtain ⟨ops, rfl⟩ := h
  exact storeInv_runSeq emptyStore ops storeInv_empty

theorem map_eq_error {ε α β : Type} {f : α → β} {x : Except ε α} {e : ε}
    (h : x.map f = .error e) : x = .error e := by
  cases x with
  | error e2 => simpa [Except.map] using h
  | ok a => simp [Except.map] at h

theorem createRow_error {α : Type} {getId : α → Nat} {chk : Option DomainError}
    {l : List α} {a : α} {e : DomainError}
    (h : createRow getId chk l a = .error e) :
    chk = some e ∨ (chk = none ∧ getId a ∈ l.map getId ∧ e = .constraintViolation) := by
  cases chk with
  | some e2 =>
    simp [createRow] at h
    exact Or.inl (by rw [h])
  | none =>
    by_cases hid : getId a ∈ l.map getId
    · simp [createRow, hid] at h
      exact Or.inr ⟨rfl, hid, h.symm⟩
    · simp [createRow, hid] at h

theorem riskAssessment_chk_notFound {s : Store} {r : RiskAssessment} :
    RiskAssessment.chk s r = some .notFound ↔
      ¬(r.patient_id ∈ patientIds s ∧ OptRef (userIds s) r.created_by) := by
  by_cases h1 : r.patient_id ∈ patientIds s ∧ OptRef (userIds s) r.created_by <;>
    by_cases h2 : r.rangeOk <;> simp [RiskAssessment.chk, h1, h2]

/-- C1: every stored clinical record (Vital, LabResult, RiskAssessment,
Alert, Intervention) has a patient_id referencing an existing Patient
row (the column is non-nullable, mirroring `nullable=False`), and
creating a Vital whose patient_id matches no Patient fails with
NotFound, leaving the store unchanged. -/
theorem C1_clinical_records_reference_existing_patient :
    (∀ s : Store, Reachable s →
      (∀ v ∈ s.vitals, v.patient_id ∈ patientIds s) ∧
      (∀ lr ∈ s.lab_results, lr.patient_id ∈ patientIds s) ∧
      (∀ r ∈ s.risk_assessments, r.patient_id ∈ patientIds s) ∧
      (∀ a ∈ s.alerts, a.patient_id ∈ patientIds s) ∧
      (∀ i ∈ s.interventions, i.patient_id ∈ patientIds s)) ∧
    (∀ (s : Store) (v : Vital), v.patient_id ∉ patientIds s →
      step s (.createVital v) = .error .notFound ∧ run s (.createVital v) = s) := by
  constructor
  · intro s hs
    obtain ⟨-, -, hV, hL, hR, hA, hI⟩ := reachable_storeInv hs
    exact ⟨fun v hv => (hV v hv).1, hL, fun r hr => (hR r hr).1,
           fun a ha => (hA a ha).1, fun i hi => (hI i hi).1⟩
  · intro s v hp
    have hchk : Vital.chk s v = some .notFound := vital_chk_notFound.2 hp
    have hst : step s (.createVital v) = .error .notFound := by
      simp [step, createRow_error_of_chk hchk, Except.map]
    exact ⟨hst, run_of_error hst⟩

theorem C1_witness :
    (∀ v ∈ (runSeq emptyStore opsBase).vitals,
      v.patient_id ∈ patientIds (runSeq emptyStore opsBase)) ∧
    step emptyStore (.createVital vitalOrphan) = .error .notFound ∧
    run emptyStore (.createVital vitalOrphan) = emptyStore :=
  ⟨(C1_clinical_records_reference_existing_patient.1 _ ⟨opsBase, rfl⟩).1,
   C1_clinical_records_reference_existing_patient.2 emptyStore vitalOrphan (by decide)⟩

/-- C2: inserting a Vital whose heart_rate lies outside the inclusive
range 0–300 is rejected (with ConstraintViolation whenever the patient
reference is valid), and a Vital whose heart_rate lies inside the range
is not rejected on account of that field: with a valid patient, in-range
blood pressures and a fresh key the insert succeeds. -/
theorem C2_heart_rate_range_enforced :
    (∀ (s : Store) (v : Vital) (h : Int), v.heart_rate = some h →
      (h < 0 ∨ 300 < h) →
      (∃ e, step s (.createVital v) = .error e) ∧ run s (.createVital v) = s) ∧
    (∀ (s : Store) (v : Vital), v.patient_id ∈ patientIds s → ¬v.rangesOk →
      step s (.createVital v) = .error .constraintViolation) ∧
    (∀ (s : Store) (v : Vital) (h : Int), v.heart_rate = some h →
      0 ≤ h → h ≤ 300 → v.patient_id ∈ patientIds s →
      OptInRange 50 300 v.systolic_bp → OptInRange 30 200 v.diastolic_bp →
      v.id ∉ vitalIds s →
      step s (.createVital v) = .ok { s with vitals := s.vitals ++ [v] }) := by
  refine ⟨?_, ?_, ?_⟩
  · intro s v h hhr hout
    by_cases hp : v.patient_id ∈ patientIds s
    · have hnr : ¬v.rangesOk := by
        intro hrg
        have h1 : OptInRange 0 300 v.heart_rate := hrg.1
        rw [hhr] at h1
        rcases hout with hlt | hgt
        · exact absurd h1.1 (not_le.2 hlt)
        · exact absurd h1.2 (not_le.2 hgt)
      have hchk : Vital.chk s v = some .constraintViolation := by
        simp [Vital.chk, hp, hnr]
      have hst : step s (.createVital v) = .error .constraintViolation := by
        simp [step, createRow_error_of_chk hchk, Except.map]
      exact ⟨⟨_, hst⟩, run_of_error hst⟩
    · have hchk : Vital.chk s v = some .notFound := vital_chk_notFound.2 hp
      have hst : step s (.createVital v) = .error .notFound := by
        simp [step, createRow_error_of_chk hchk, Except.map]
      exact ⟨⟨_, hst⟩, run_of_error hst⟩
  · intro s v hp hnr
    have hchk : Vital.chk s v = some .constraintViolation := by
      simp [Vital.chk, hp, hnr]
    simp [step, createRow_error_of_chk hchk, Except.map]
  · intro s v h hhr h0 h3 hp hsys hdia hfresh
    have hrg : v.rangesOk := ⟨by rw [hhr]; exact ⟨h0, h3⟩, hsys, hdia⟩
    have hchk : Vital.chk s v = none := vital_chk_none.2 ⟨hp, hrg⟩
    have hfresh2 : Vital.id v ∉ s.vitals.map Vital.id := hfresh
    have hcr := createRow_isOk hchk hfresh2
    simp [step, hcr, Except.map]

theorem C2_witness :
    (vitalTachy.heart_rate = some 301 ∧ ((301 : Int) < 0 ∨ 300 < (301 : Int)) ∧
      (∃ e, step (runSeq emptyStore opsPatientOnly) (.createVital vitalTachy) = .error e) ∧
      run (runSeq emptyStore opsPatientOnly) (.createVital vitalTachy) =
        runSeq emptyStore opsPatientOnly) ∧
    step (runSeq emptyStore opsPatientOnly) (.createVital vitalNormal) =
      .ok { runSeq emptyStore opsPatientOnly with
            vitals := (runSeq emptyStore opsPatientOnly).vitals ++ [vitalNormal] } :=
  ⟨⟨rfl, by decide,
    C2_heart_rate_range_enforced.1 (runSeq emptyStore opsPatientOnly) vitalTachy 301
      rfl (by decide)⟩,
   C2_heart_rate_range_enforced.2.2 (runSeq emptyStore opsPatientOnly) vitalNormal 70
     rfl (by decide) (by decide) (by decide) (by decide) (by decide) (by decide)⟩

/-- C3: every stored RiskAssessment has risk_score in the inclusive
interval [0,100]; inserting a RiskAssessment whose risk_score lies
outside it is rejected (with ConstraintViolation whenever its
references are valid). -/
theorem C3_risk_score_range_enforced :
    (∀ s : Store, Reachable s →
      ∀ r ∈ s.risk_assessments, 0 ≤ r.risk_score ∧ r.risk_score ≤ 100) ∧
    (∀ (s : Store) (r : RiskAssessment), r.risk_score < 0 ∨ 100 < r.risk_score →
      (∃ e, step s (.createRiskAssessment r) = .error e) ∧
      run s (.createRiskAssessment r) = s) ∧
    (∀ (s : Store) (r : RiskAssessment), r.patient_id ∈ patientIds s →
      OptRef (userIds s) r.created_by → ¬r.rangeOk →
      step s (.createRiskAssessment r) = .error .constraintViolation) := by
  refine ⟨?_, ?_, ?_⟩
  · intro s hs
    obtain ⟨-, -, -, -, hR, -, -⟩ := reachable_storeInv hs
    exact fun r hr => (hR r hr).2.2
  · intro s r hout
    have hnr : ¬r.rangeOk := by
      intro hrg
      rcases hout with hlt | hgt
      · exact absurd hrg.1 (not_le.2 hlt)
      · exact absurd hrg.2 (not_le.2 hgt)
    by_cases href : r.patient_id ∈ patientIds s ∧ OptRef (userIds s) r.created_by
    · have hchk : RiskAssessment.chk s r = some .constraintViolation := by
        simp [RiskAssessment.chk, href, hnr]
      have hst : step s (.createRiskAssessment r) = .error .constraintViolation := by
        simp [step, createRow_error_of_chk hchk, Except.map]
      exact ⟨⟨_, hst⟩, run_of_error hst⟩
    · have hchk : RiskAssessment.chk s r = some .notFound := by
        simp [RiskAssessment.chk, href]
      have hst : step s (.createRiskAssessment r) = .error .notFound := by
        simp [step, createRow_error_of_chk hchk, Except.map]
      exact ⟨⟨_, hst⟩, run_of_error hst⟩
  · intro s r hp ho hnr
    have hchk : RiskAssessment.chk s r = some .constraintViolation := by
      simp [RiskAssessment.chk, hp, ho, hnr]
    simp [step, createRow_error_of_chk hchk, Except.map]

theorem C3_witness :
    (∀ r ∈ (runSeq emptyStore opsNullCreator).risk_assessments,
      0 ≤ r.risk_score ∧ r.risk_score ≤ 100) ∧
    ((riskOverflow.risk_score < 0 ∨ 100 < riskOverflow.risk_score) ∧
      (∃ e, step (runSeq emptyStore opsPatientOnly) (.createRiskAssessment riskOverflow) =
        .error e) ∧
      run (runSeq emptyStore opsPatientOnly) (.createRiskAssessment riskOverflow) =
        runSeq emptyStore opsPatientOnly) :=
  ⟨C3_risk_score_range_enforced.1 _ ⟨opsNullCreator, rfl⟩,
   by decide,
   C3_risk_score_range_enforced.2.1 (runSeq emptyStore opsPatientOnly) riskOverflow
     (by decide)⟩

/-- C4: no two stored Users share a username or an email, and inserting
a User whose username or email collides with a stored User fails with
ConstraintViolation, leaving the store unchanged. -/
theorem C4_user_uniqueness :
    (∀ s : Store, Reachable s →
      s.users.Pairwise (fun a b => a.username ≠ b.username ∧ a.email ≠ b.email)) ∧
    (∀ (s : Store) (u u2 : User), u2 ∈ s.users →
      (u2.username = u.username ∨ u2.email = u.email) →
      step s (.createUser u) = .error .constraintViolation ∧
      run s (.createUser u) = s) := by
  constructor
  · intro s hs
    exact (reachable_storeInv hs).2.1
  · intro s u u2 hu2 hdup
    have hncond : ¬∀ x ∈ s.users, x.username ≠ u.username ∧ x.email ≠ u.email := by
      intro hcond
      rcases hdup with hdu | hde
      · exact (hcond u2 hu2).1 hdu
      · exact (hcond u2 hu2).2 hde
    have hchk : User.chkAgainst s.users u = some .constraintViolation := by
      simp [User.chkAgainst, hncond]
    have hst : step s (.createUser u) = .error .constraintViolation := by
      simp [step, createRow_error_of_chk hchk, Except.map]
    exact ⟨hst, run_of_error hst⟩

theorem C4_witness :
    (runSeq emptyStore opsUserOnly).users.Pairwise
      (fun a b => a.username ≠ b.username ∧ a.email ≠ b.email) ∧
    step (runSeq emptyStore opsUserOnly) (.createUser userBobClone) =
      .error .constraintViolation ∧
    run (runSeq emptyStore opsUserOnly) (.createUser userBobClone) =
      runSeq emptyStore opsUserOnly :=
  ⟨C4_user_uniqueness.1 _ ⟨opsUserOnly, rfl⟩,
   C4_user_uniqueness.2 (runSeq emptyStore opsUserOnly) userBobClone userBob
     (by decide) (Or.inl (by decide))⟩

/-- C5: every stored Vital has systolic_bp in [50,300] and diastolic_bp
in [30,200] whenever those nullable columns are present, and an insert
or an update carrying an out-of-range blood pressure is rejected,
leaving the store unchanged. -/
theorem C5_blood_pressure_ranges :
    (∀ s : Store, Reachable s → ∀ v ∈ s.vitals,
      OptInRange 50 300 v.systolic_bp ∧ OptInRange 30 200 v.diastolic_bp) ∧
    (∀ (s : Store) (v : Vital),
      ¬OptInRange 50 300 v.systolic_bp ∨ ¬OptInRange 30 200 v.diastolic_bp →
      ((∃ e, step s (.createVital v) = .error e) ∧ run s (.createVital v) = s) ∧
      (v.id ∈ vitalIds s →
        (∃ e, step s (.updateVital v) = .error e) ∧ run s (.updateVital v) = s)) := by
  constructor
  · intro s hs
    obtain ⟨-, -, hV, -, -, -, -⟩ := reachable_storeInv hs
    exact fun v hv => ⟨(hV v hv).2.2.1, (hV v hv).2.2.2⟩
  · intro s v hbad
    have hnr : ¬v.rangesOk := by
      intro hrg
      rcases hbad with hb | hb
      · exact hb hrg.2.1
      · exact hb hrg.2.2
    have hchk : ∃ e, Vital.chk s v = some e := by
      by_cases hp : v.patient_id ∈ patientIds s
      · exact ⟨.constraintViolation, by simp [Vital.chk, hp, hnr]⟩
      · exact ⟨.notFound, by simp [Vital.chk, hp]⟩
    obtain ⟨e, hchk⟩ := hchk
    constructor
    · have hst : step s (.createVital v) = .error e := by
        simp [step, createRow_error_of_chk hchk, Except.map]
      exact ⟨⟨_, hst⟩, run_of_error hst⟩
    · intro hid
      have hid2 : Vital.id v ∈ s.vitals.map Vital.id := hid
      have hup : updateRow Vital.id (Vital.chk s v) s.vitals v = .error e :=
        updateRow_error_of_chk hchk hid2
      have hst : step s (.updateVital v) = .error e := by
        simp [step, hup, Except.map]
      exact ⟨⟨_, hst⟩, run_of_error hst⟩

theorem C5_witness :
    (∀ v ∈ (runSeq emptyStore opsBase).vitals,
      OptInRange 50 300 v.systolic_bp ∧ OptInRange 30 200 v.diastolic_bp) ∧
    ((∃ e, step (runSeq emptyStore opsPatientOnly) (.createVital vitalBadBp) = .error e) ∧
      run (runSeq emptyStore opsPatientOnly) (.createVital vitalBadBp) =
        runSeq emptyStore opsPatientOnly) ∧
    ((∃ e, step (runSeq emptyStore opsBase) (.updateVital vitalBadUpdate) = .error e) ∧
      run (runSeq emptyStore opsBase) (.updateVital vitalBadUpdate) =
        runSeq emptyStore opsBase) :=
  ⟨C5_blood_pressure_ranges.1 _ ⟨opsBase, rfl⟩,
   (C5_blood_pressure_ranges.2 (runSeq emptyStore opsPatientOnly) vitalBadBp
     (Or.inl (by decide))).1,
   (C5_blood_pressure_ranges.2 (runSeq emptyStore opsBase) vitalBadUpdate
     (Or.inl (by decide))).2 (by decide)⟩

/-- C6: no operation sequence of the Clinical Records Store removes a
stored row — every primary key present before a sequence of operations
is still present afterwards — and the lifecycle operations only rewrite
rows in place: deactivating a Patient maps the table through
`Patient.deactivate` (clearing `is_active` of the matching row),
acknowledging and resolving an Alert map the table through
`Alert.acknowledge` / `Alert.resolve` (setting status and the
acknowledgment/resolution fields of the matching row). -/
theorem C6_soft_lifecycle_no_delete :
    (∀ (s : Store) (ops : List Op), IdsLe s (runSeq s ops)) ∧
    (∀ (s : Store) (pid : Nat), pid ∈ patientIds s →
      run s (.deactivatePatient pid) =
        { s with patients := s.patients.map (Patient.deactivate pid) }) ∧
    (∀ (s : Store) (aid uid t : Nat), aid ∈ alertIds s → uid ∈ userIds s →
      run s (.acknowledgeAlert aid uid t) =
        { s with alerts := s.alerts.map (Alert.acknowledge aid uid t) }) ∧
    (∀ (s : Store) (aid t : Nat), aid ∈ alertIds s →
      run s (.resolveAlert aid t) =
        { s with alerts := s.alerts.map (Alert.resolve aid t) }) := by
  refine ⟨runSeq_idsLe, ?_, ?_, ?_⟩
  · intro s pid h
    exact run_of_ok (by simp [step, h])
  · intro s aid uid t h1 h2
    exact run_of_ok (by simp [step, h1, h2])
  · intro s aid t h
    exact run_of_ok (by simp [step, h])

theorem C6_witness :
    IdsLe (runSeq emptyStore opsBase) (runSeq (runSeq emptyStore opsBase) opsAlertUser) ∧
    run (runSeq emptyStore opsPatientOnly) (.deactivatePatient 1) =
      { runSeq emptyStore opsPatientOnly with
        patients := (runSeq emptyStore opsPatientOnly).patients.map
          (Patient.deactivate 1) } ∧
    run (runSeq emptyStore opsAlertUser) (.acknowledgeAlert 30 2 5) =
      { runSeq emptyStore opsAlertUser with
        alerts := (runSeq emptyStore opsAlertUser).alerts.map
          (Alert.acknowledge 30 2 5) } ∧
    run (runSeq emptyStore opsAlertUser) (.resolveAlert 30 6) =
      { runSeq emptyStore opsAlertUser with
        alerts := (runSeq emptyStore opsAlertUser).alerts.map (Alert.resolve 30 6) } :=
  ⟨C6_soft_lifecycle_no_delete.1 (runSeq emptyStore opsBase) opsAlertUser,
   C6_soft_lifecycle_no_delete.2.1 (runSeq emptyStore opsPatientOnly) 1 (by decide),
   C6_soft_lifecycle_no_delete.2.2.1 (runSeq emptyStore opsAlertUser) 30 2 5
     (by decide) (by decide),
   C6_soft_lifecycle_no_delete.2.2.2 (runSeq emptyStore opsAlertUser) 30 6 (by decide)⟩

/-- C7: a failing operation of the Clinical Records Store signals one of
exactly two domain error kinds — NotFound or ConstraintViolation — and
leaves the store unchanged; for the create operations of Vital and
RiskAssessment, NotFound is signalled precisely when a referenced
patient (or, for RiskAssessment, a referenced creating user) does not
exist. -/
theorem C7_error_taxonomy :
    (∀ (s : Store) (op : Op) (e : DomainError), step s op = .error e →
      (e = .notFound ∨ e = .constraintViolation) ∧ run s op = s) ∧
    (∀ (s : Store) (v : Vital),
      step s (.createVital v) = .error .notFound ↔ v.patient_id ∉ patientIds s) ∧
    (∀ (s : Store) (r : RiskAssessment),
      step s (.createRiskAssessment r) = .error .notFound ↔
        ¬(r.patient_id ∈ patientIds s ∧ OptRef (userIds s) r.created_by)) := by
  refine ⟨?_, ?_, ?_⟩
  · intro s op e h
    refine ⟨?_, run_of_error h⟩
    cases e
    · exact Or.inl rfl
    · exact Or.inr rfl
  · intro s v
    constructor
    · intro h
      have h2 : (createRow Vital.id (Vital.chk s v) s.vitals v).map
          (fun l => { s with vitals := l }) = .error .notFound := by
        simpa [step] using h
      rcases createRow_error (map_eq_error h2) with hc | ⟨-, -, hc⟩
      · exact vital_chk_notFound.1 hc
      · exact absurd hc (by intro hc2; cases hc2)
    · intro hp
      have hchk : Vital.chk s v = some .notFound := vital_chk_notFound.2 hp
      simp [step, createRow_error_of_chk hchk, Except.map]
  · intro s r
    constructor
    · intro h
      have h2 : (createRow RiskAssessment.id (RiskAssessment.chk s r)
          s.risk_assessments r).map (fun l => { s with risk_assessments := l }) =
          .error .notFound := by
        simpa [step] using h
      rcases createRow_error (map_eq_error h2) with hc | ⟨-, -, hc⟩
      · exact riskAssessment_chk_notFound.1 hc
      · exact absurd hc (by intro hc2; cases hc2)
    · intro hno
      have hchk : RiskAssessment.chk s r = some .notFound :=
        riskAssessment_chk_notFound.2 hno
      simp [step, createRow_error_of_chk hchk, Except.map]

theorem C7_witness :
    ((DomainError.notFound = .notFound ∨ DomainError.notFound = .constraintViolation) ∧
      run emptyStore (.createVital vitalOrphan) = emptyStore) ∧
    (step emptyStore (.createVital vitalOrphan) = .error .notFound ↔
      vitalOrphan.patient_id ∉ patientIds emptyStore) :=
  ⟨C7_error_taxonomy.1 emptyStore (.createVital vitalOrphan) .notFound (by rfl),
   C7_error_taxonomy.2.1 emptyStore vitalOrphan⟩

/-- C8 counterexample: the claim that every stored RiskAssessment has a
non-null created_by is false — `created_by` is a nullable column
(src/models.py line 150 declares no `nullable=False`), so a
RiskAssessment row with created_by NULL is admissible: the two-operation
sequence `opsNullCreator` stores `riskHalf`, whose created_by is none. -/
theorem C8_counterexample :
    ¬(∀ s : Store, Reachable s →
       ∀ r ∈ s.risk_assessments, ∃ uid, r.created_by = some uid) := by
  intro hclaim
  obtain ⟨uid, huid⟩ :=
    hclaim (runSeq emptyStore opsNullCreator) ⟨opsNullCreator, rfl⟩ riskHalf (by decide)
  simp [riskHalf] at huid

/-- C8 (amended): every stored RiskAssessment whose created_by is
non-null references an existing User, and creating a RiskAssessment
whose created_by names a non-existent user fails with NotFound, leaving
the store unchanged; created_by itself is nullable. -/
theorem C8_created_by_references_user :
    (∀ s : Store, Reachable s →
      ∀ r ∈ s.risk_assessments, OptRef (userIds s) r.created_by) ∧
    (∀ (s : Store) (r : RiskAssessment) (uid : Nat), r.created_by = some uid →
      uid ∉ userIds s →
      step s (.createRiskAssessment r) = .error .notFound ∧
      run s (.createRiskAssessment r) = s) := by
  constructor
  · intro s hs
    obtain ⟨-, -, -, -, hR, -, -⟩ := reachable_storeInv hs
    exact fun r hr => (hR r hr).2.1
  · intro s r uid hcb huid
    have hno : ¬(r.patient_id ∈ patientIds s ∧ OptRef (userIds s) r.created_by) := by
      rintro ⟨-, ho⟩
      rw [hcb] at ho
      exact huid ho
    have hchk : RiskAssessment.chk s r = some .notFound :=
      riskAssessment_chk_notFound.2 hno
    have hst : step s (.createRiskAssessment r) = .error .notFound := by
      simp [step, createRow_error_of_chk hchk, Except.map]
    exact ⟨hst, run_of_error hst⟩

theorem C8_witness :
    (∀ r ∈ (runSeq emptyStore opsNullCreator).risk_assessments,
      OptRef (userIds (runSeq emptyStore opsNullCreator)) r.created_by) ∧
    step (runSeq emptyStore opsPatientOnly) (.createRiskAssessment riskGhostCreator) =
      .error .notFound ∧
    run (runSeq emptyStore opsPatientOnly) (.createRiskAssessment riskGhostCreator) =
      runSeq emptyStore opsPatientOnly :=
  ⟨C8_created_by_references_user.1 _ ⟨opsNullCreator, rfl⟩,
   C8_created_by_references_user.2 (runSeq emptyStore opsPatientOnly) riskGhostCreator 99
     rfl (by decide)⟩

/-- C9: after `set_password p`, `check_password p` returns True, and
`check_password q` returns False for any candidate whose hash differs
from that of p.  werkzeug's `generate_password_hash` /
`check_password_hash` pair (an external library) is abstracted as an
arbitrary hash function: `check_password_hash(h, q)` succeeds exactly
when q hashes to the stored h, which is the comparison
`User.check_password` performs. -/
theorem C9_password_roundtrip (hash : String → String) (u : User) (p q : String)
    (hne : hash q ≠ hash p) :
    User.check_password hash (User.set_password hash u p) p = true ∧
    User.check_password hash (User.set_password hash u p) q = false := by
  constructor
  · simp [User.check_password, User.set_password]
  · simp [User.check_password, User.set_password, hne]

theorem C9_witness :
    (fun s => s) "b" ≠ (fun s => s) "a" ∧
    User.check_password (fun s => s) (User.set_password (fun s => s) userBob "a") "a" =
      true ∧
    User.check_password (fun s => s) (User.set_password (fun s => s) userBob "a") "b" =
      false :=
  ⟨by decide,
   (C9_password_roundtrip (fun s => s) userBob "a" "b" (by decide)).1,
   (C9_password_roundtrip (fun s => s) userBob "a" "b" (by decide)).2⟩

/-- C10: records built from the required columns alone take the declared
lifecycle defaults of src/models.py — a new User has role viewer,
is_active True and is_verified False; a new Alert has status active; a
new LabResult has status pending. -/
theorem C10_lifecycle_defaults :
    (∀ (i : Nat) (un em ph : String),
      (User.new i un em ph).role = "viewer" ∧
      (User.new i un em ph).is_active = true ∧
      (User.new i un em ph).is_verified = false) ∧
    (∀ (i pid : Nat) (ty ti : String), (Alert.new i pid ty ti).status = "active") ∧
    (∀ (i pid : Nat) (tn : String) (td : Nat),
      (LabResult.new i pid tn td).status = "pending") :=
  ⟨fun _ _ _ _ => ⟨rfl, rfl, rfl⟩, fun _ _ _ _ => rfl, fun _ _ _ _ => rfl⟩

end HealthcareRisk
